import Mathlib

/-!
Shallow embedding of the telepresence proxy-connection subsystem
(`telepresence/connect/__init__.py` and `telepresence/local.py`).

Side-effecting calls (process launches, file writes, environment updates,
cleanup registration, readiness probes) are recorded as an ordered event
trace; fallible steps return `Except`.  External collaborators that are not
part of the two embedded files (the `Runner` facilities, the `SSH` session
object, `find_free_port`, `expose_local_services`, `connect_sshuttle`,
`MAC_LOOPBACK_IP`) are modelled from the specification at the granularity
of the events they contribute to the trace.
-/

/-- Observable effect of one step of the subsystem.  Events are recorded in
program order, so the trace of a run is a faithful linearisation of the
side effects the Python code performs. -/
inductive Event where
  | launch (name : String) (args : List String)
  | findPort (port : Nat)
  | sshWait
  | expose
  | trackBackground (port : Nat)
  | checkCall (args : List String)
  | addCleanup (name : String)
  | require (tools : List String)
  | writeFile (name : String) (content : String)
  | setEnv (key : String) (val : String)
  | toolStubs (dnsSupported : Bool)
  | probe (success : Bool)
  | spawn (args : List String)
  | copyFile (src : String) (dst : String)
  deriving Repr, DecidableEq

/-- Errors raised during topology construction (`connect`). -/
inductive SetupErr where
  | dependency (msg : String)
  | resolution (msg : String)
  | privilege
  deriving Repr, DecidableEq

/-- Errors raised by `run_local_command` / `setup_torsocks`:
`proxyNotReady` models the `RuntimeError` raised when the torsocks probe
loop times out; `unboundLocal` models the Python `UnboundLocalError`
raised by `return p` when no branch bound `p`. -/
inductive LocalErr where
  | proxyNotReady (msg : String)
  | unboundLocal
  deriving Repr, DecidableEq

/-- Splits a character list on a separator character, mirroring Python's
`str.split(sep)` for a one-character separator (`"".split(":") == [""]`). -/
def splitOnChar (c : Char) : List Char → List (List Char)
  | [] => [[]]
  | x :: xs =>
    let r := splitOnChar c xs
    if x = c then [] :: r
    else
      match r with
      | [] => [[x]]
      | g :: gs => (x :: g) :: gs

/-- Longest digit prefix of a character list, with the rest. -/
def takeDigits : List Char → List Char × List Char
  | [] => ([], [])
  | c :: cs =>
    if c.isDigit then (c :: (takeDigits cs).1, (takeDigits cs).2)
    else ([], c :: cs)

/-- One `\d+` token: the maximal digit run, failing when it is empty. -/
def matchNum (s : List Char) : Option (List Char × List Char) :=
  if (takeDigits s).1.isEmpty then none else some (takeDigits s)

/-- One literal `\.` token. -/
def eatDot : List Char → Option (List Char)
  | c :: t => if c = '.' then some t else none
  | [] => none

/-- Attempts to match the regular expression `\d+\.\d+\.\d+\.\d+` at the
head of the input, returning the matched characters and the rest.  Greedy
digit runs followed by a literal dot need no backtracking, so maximal munch
is exactly Python `re` semantics here. -/
def matchIPv4 (s : List Char) : Option (List Char × List Char) :=
  (matchNum s).bind fun p1 =>
  (eatDot p1.2).bind fun r1a =>
  (matchNum r1a).bind fun p2 =>
  (eatDot p2.2).bind fun r2a =>
  (matchNum r2a).bind fun p3 =>
  (eatDot p3.2).bind fun r3a =>
  (matchNum r3a).bind fun p4 =>
  some (p1.1 ++ '.' :: (p2.1 ++ '.' :: (p3.1 ++ '.' :: p4.1)), p4.2)

/-- Fuel-indexed scan implementing `re.findall(r"(\d+\.\d+\.\d+\.\d+)", s)`:
try a match at each position, on success continue after the match, on
failure advance one character.  Every step consumes at least one character,
so fuel equal to the input length never runs out. -/
def findAllIPv4Go (fuel : Nat) (s : List Char) : List String :=
  match fuel with
  | 0 => []
  | fuel + 1 =>
    match s with
    | [] => []
    | c :: cs =>
      match matchIPv4 (c :: cs) with
      | some (m, r) => String.mk m :: findAllIPv4Go fuel r
      | none => findAllIPv4Go fuel cs

/-- All non-overlapping matches of `\d+\.\d+\.\d+\.\d+` in a string, in
order: the embedding of `re.findall(r"(\d+\.\d+\.\d+\.\d+)", out)`. -/
def findAllIPv4 (s : String) : List String :=
  findAllIPv4Go s.data.length s.data

/-! ## `telepresence/local.py` -/

/-- The four directories protected by System Integrity Protection, as the
set literal in `sip_workaround`. -/
def sip_protected : List String := ["/bin", "/sbin", "/usr/sbin", "/usr/bin"]

/-- The entry list of the `$PATH` built by `sip_workaround`: protected
entries of the current `$PATH` are removed, the fresh `sip_bin` temp
directory is inserted at position 0, and finally the unsupported-tools
directory is prepended in front of everything.  `bin_dir` stands for the
result of `runner.make_temp("sip_bin")`. -/
def sip_workaround_paths
    (existing_paths unsupported_tools_path bin_dir : String) : List String :=
  let paths := ((splitOnChar ':' existing_paths.data).map String.mk).filter
    (fun p => !(decide (p ∈ sip_protected)))
  let paths := bin_dir :: paths
  unsupported_tools_path :: paths

/-- The `$PATH` string returned by `sip_workaround`. -/
def sip_workaround (existing_paths unsupported_tools_path bin_dir : String) :
    String :=
  String.intercalate ":" (sip_workaround_paths existing_paths unsupported_tools_path bin_dir)

/-- Copy events performed by `sip_workaround`: every file listed in each
protected directory is copied into the single temp directory `bin_dir`.
`listdir` stands for `os.listdir`. -/
def sip_copy_events (listdir : String → List String) (bin_dir : String) :
    List Event :=
  sip_protected.flatMap
    (fun d => (listdir d).map (fun f => Event.copyFile (d ++ "/" ++ f) bin_dir))

/-- The script text `NICE_FAILURE.format(command)`: the triple-quoted
template with its backslash line continuations collapsed and the hole
filled with the command name. -/
def nice_failure (command : String) : String :=
  "#!/bin/sh\necho " ++ command ++
    " is not supported under Telepresence.\necho See https://telepresence.io/reference/limitations.html for details.\nexit 55\n"

/-- The command list shadowed by `get_unsupported_tools`. -/
def unsupported_commands (dns_supported : Bool) : List String :=
  ["ping", "traceroute"] ++ (if !dns_supported then ["nslookup", "dig", "host"] else [])

/-- One stub executable written by `get_unsupported_tools`: its file name,
its script content, and the mode passed to `os.chmod`. -/
structure ToolStub where
  name : String
  content : String
  mode : Nat
  deriving Repr, DecidableEq

/-- The stub executables `get_unsupported_tools` writes into the
`unsup_bin` temp directory. -/
def get_unsupported_tools (dns_supported : Bool) : List ToolStub :=
  (unsupported_commands dns_supported).map
    (fun c => { name := c, content := nice_failure c, mode := 0o755 })

/-- Decimal value of a digit string, for the status of an `exit` line. -/
def parseNatChars (l : List Char) : Nat :=
  l.foldl (fun acc c => acc * 10 + (c.toNat - 48)) 0

/-- Minimal shell semantics for the generated stub scripts: `echo` lines
print their argument text, an `exit` line stops with that status, comment
lines (`#!/bin/sh`) are skipped.  Returns (printed lines, exit status). -/
def run_stub_lines : List (List Char) → List String × Nat
  | [] => ([], 0)
  | line :: rest =>
    if List.isPrefixOf "#".data line then run_stub_lines rest
    else if List.isPrefixOf "echo ".data line then
      let (out, code) := run_stub_lines rest
      (String.mk (line.drop 5) :: out, code)
    else if List.isPrefixOf "exit ".data line then
      ([], parseNatChars (line.drop 5))
    else run_stub_lines rest

/-- Runs a stub script under the minimal shell semantics. -/
def run_stub_script (s : String) : List String × Nat :=
  run_stub_lines (splitOnChar (Char.ofNat 10) s.data)

/-- The contents of the custom `tel_torsocks.conf`:
`TORSOCKS_CONFIG.format(socks_port)`. -/
def torsocks_config (socks_port : Nat) : String :=
  "\n# Allow process to listen on ports:\nAllowInbound 1\n# Allow process to connect to localhost:\nAllowOutboundLocalhost 1\n# Connect to custom port for SOCKS server:\nTorPort " ++
    toString socks_port ++ "\n"

/-- Timeout of the torsocks readiness loop, in tenths of a second
(`while time() - start < 10`). -/
def torsocks_timeout_tenths : Nat := 100

/-- Retry interval of the torsocks readiness loop, in tenths of a second
(`sleep(0.1)` after each failed probe). -/
def torsocks_interval_tenths : Nat := 1

/-- The readiness loop of `setup_torsocks`, with time discretised in
tenths of a second: only the `sleep(0.1)` after a failed probe advances
the clock, so probe attempt `k` (0-based) runs at elapsed time `k` tenths
and is admitted only while `k` tenths `< 10` seconds; `fuel` is the number
of attempts the remaining time still admits.  `probe k` tells whether the
`check_call` of attempt `k` succeeds.  Returns the probe events and either
`ok` (total number of attempts made) or the timeout error. -/
def torsocks_wait (probe : Nat → Bool) :
    Nat → Nat → List Event × Except LocalErr Nat
  | 0, _ => ([], Except.error (LocalErr.proxyNotReady "SOCKS network proxying failed to start..."))
  | fuel + 1, attempt =>
    if probe attempt then ([Event.probe true], Except.ok (attempt + 1))
    else
      (Event.probe false :: (torsocks_wait probe fuel (attempt + 1)).1,
       (torsocks_wait probe fuel (attempt + 1)).2)

/-- Inputs of a `run_local_command` / `setup_torsocks` run.  `probe k`
tells whether the k-th torsocks connectivity `check_call` succeeds;
`listdir` stands for `os.listdir`; `logfileIsStdout` reflects
`runner.output.logfile is sys.stdout`; `runArgs` is `args.run`
(`none` means `--run-shell`); `context` is `args.context`. -/
structure LocalCfg where
  method : String
  platform : String
  context : String
  existingPath : String
  logfileIsStdout : Bool
  logfileName : String
  runArgs : Option (List String)
  probe : Nat → Bool
  listdir : String → List String
  sipBinDir : String

/-- The events `setup_torsocks` performs before entering its readiness
loop, in program order: write the custom torsocks configuration, point the
torsocks environment variables at it, and on macOS apply the SIP
workaround (copy the protected binaries and rewrite `PATH`). -/
def torsocks_pre_events (cfg : LocalCfg) (socks_port : Nat)
    (unsupported_tools_path : String) : List Event :=
  [Event.writeFile "tel_torsocks.conf" (torsocks_config socks_port),
   Event.setEnv "TORSOCKS_CONF_FILE" "tel_torsocks.conf"] ++
  (if !cfg.logfileIsStdout then
    [Event.setEnv "TORSOCKS_LOG_FILE_PATH" cfg.logfileName]
   else []) ++
  (if cfg.platform = "darwin" then
    sip_copy_events cfg.listdir cfg.sipBinDir ++
      [Event.setEnv "PATH"
        (sip_workaround cfg.existingPath unsupported_tools_path cfg.sipBinDir)]
   else [])

/-- The embedding of `setup_torsocks`: the pre-loop events followed by the
bounded readiness loop.  Returns the event trace and the loop's
outcome. -/
def setup_torsocks (cfg : LocalCfg) (socks_port : Nat)
    (unsupported_tools_path : String) : List Event × Except LocalErr Unit :=
  (torsocks_pre_events cfg socks_port unsupported_tools_path ++
    (torsocks_wait cfg.probe torsocks_timeout_tenths 0).1,
   (torsocks_wait cfg.probe torsocks_timeout_tenths 0).2.map (fun _ => ()))

/-- The `PROMPT_COMMAND` value set by `run_local_command`. -/
def prompt_command (context : String) : String :=
  "PS1=\x22@" ++ context ++ "|$PS1\x22;unset PROMPT_COMMAND"

/-- The command to run: `["bash", "--norc"]` for `--run-shell`,
otherwise `args.run`. -/
def local_command (cfg : LocalCfg) : List String :=
  match cfg.runArgs with
  | none => ["bash", "--norc"]
  | some r => r

/-- Environment-construction events at the start of `run_local_command`:
set `PROMPT_COMMAND`, write the stub tools (`get_unsupported_tools`, with
DNS supported exactly when the method is not `inject-tcp`), and prepend
the stub directory to `PATH`. -/
def local_env_events (cfg : LocalCfg) : List Event :=
  [Event.setEnv "PROMPT_COMMAND" (prompt_command cfg.context),
   Event.toolStubs (!(cfg.method == "inject-tcp")),
   Event.setEnv "PATH" ("unsup_bin" ++ ":" ++ cfg.existingPath)]

/-- The embedding of `run_local_command`: environment construction, stub
tool injection, then the method branch.  For `inject-tcp` it runs
`setup_torsocks` and spawns the command under `torsocks`; for `vpn-tcp`
it starts sshuttle and spawns the command; for any other method no branch
binds `p`, so the cleanup is still registered and then `return p` raises
`UnboundLocalError`.  Returns the trace and either the spawned command
line or the error. -/
def run_local_command (cfg : LocalCfg) (socks_port : Nat) :
    List Event × Except LocalErr (List String) :=
  let ev := local_env_events cfg
  let command := local_command cfg
  if cfg.method = "inject-tcp" then
    match (setup_torsocks cfg socks_port "unsup_bin").2 with
    | Except.error e =>
      (ev ++ (setup_torsocks cfg socks_port "unsup_bin").1, Except.error e)
    | Except.ok () =>
      (ev ++ (setup_torsocks cfg socks_port "unsup_bin").1 ++
        [Event.spawn ("torsocks" :: command),
         Event.addCleanup "Terminate local process"],
       Except.ok ("torsocks" :: command))
  else if cfg.method = "vpn-tcp" then
    (ev ++
      [Event.launch "sshuttle" [],
       Event.spawn command,
       Event.addCleanup "Terminate local process"],
     Except.ok command)
  else
    (ev ++ [Event.addCleanup "Terminate local process"],
     Except.error LocalErr.unboundLocal)

/-! ## `telepresence/connect/__init__.py` -/

/-- Modelled from the spec: the statically assigned loopback alias address
used on macOS, taken from a range reserved for testing network devices
(RFC 6890).  Its definition lives in the startup module, which is not part
of the embedded files; no claim depends on the exact value. -/
def MAC_LOOPBACK_IP : String := "198.18.0.254"

/-- Message of the failure raised when neither `ip` nor `ifconfig` is
available. -/
def docker_tools_msg : String :=
  "At least one of \x22ip addr\x22 or \x22ifconfig\x22 must be available to retrieve Docker interface info."

/-- The `docker_interfaces` list computed in the Linux branch of `connect`:
probe `ip` first, fall back to `ifconfig`, and apply the IPv4 regex to the
chosen tool's output; fail if both tools are missing.  `missing` is the
result of `runner.depend(["ip", "ifconfig"])`; `ipOut` and `ifconfigOut`
are the outputs of `ip addr show dev docker0` and `ifconfig docker0`. -/
def linux_docker_interfaces (missing : List String)
    (ipOut ifconfigOut : String) : Except SetupErr (List String) :=
  if "ip" ∉ missing then Except.ok (findAllIPv4 ipOut)
  else if "ifconfig" ∉ missing then Except.ok (findAllIPv4 ifconfigOut)
  else Except.error (SetupErr.dependency docker_tools_msg)

/-- The `docker_interface` binding selected in the Linux branch of
`connect`: the first regex match, or the "No interface for docker found"
failure when the match list is empty. -/
def linux_docker_interface (missing : List String)
    (ipOut ifconfigOut : String) : Except SetupErr String :=
  match linux_docker_interfaces missing ipOut ifconfigOut with
  | Except.error e => Except.error e
  | Except.ok [] => Except.error (SetupErr.resolution "No interface for docker found")
  | Except.ok (i :: _) => Except.ok i

/-- The socat command line launched for the container method: listen on
`(ssh local port, docker interface)` and forward to
`(127.0.0.1, ssh local port)`. -/
def socat_args (docker_interface : String) (ssh_port : Nat) : List String :=
  ["socat",
   "TCP4-LISTEN:" ++ toString ssh_port ++ ",bind=" ++ docker_interface ++ ",reuseaddr,fork",
   "TCP4:127.0.0.1:" ++ toString ssh_port]

/-- Inputs of a `connect` run.  `missing` lists the tools absent from the
host (as reported by the runner's dependency checks); `freePorts k` is the
k-th port handed out by `find_free_port`, fresh ports being pairwise
distinct; `sudoOk` tells whether `require_sudo` succeeds. -/
structure ConnectCfg where
  podName : String
  containerName : String
  method : String
  platform : String
  missing : List String
  ipAddrOutput : String
  ifconfigOutput : String
  sudoOk : Bool
  freePorts : Nat → Nat

/-- The tail of the container branch shared by both platforms: require
`socat` and launch the relay from the docker interface to loopback. -/
def socat_relay (cfg : ConnectCfg) (docker_interface : String)
    (ssh_port : Nat) : List Event × Except SetupErr Unit :=
  if "socat" ∈ cfg.missing then
    ([], Except.error (SetupErr.dependency "socat"))
  else
    ([Event.require ["socat"],
      Event.launch "socat for docker" (socat_args docker_interface ssh_port)],
     Except.ok ())

/-- The `if cmdline_args.method == "container"` block of `connect`:
resolve the docker interface (Linux) or install the `lo0` alias (macOS),
then start the socat relay. -/
def container_branch (cfg : ConnectCfg) (ssh_port : Nat) :
    List Event × Except SetupErr Unit :=
  if cfg.platform = "linux" then
    match linux_docker_interface cfg.missing cfg.ipAddrOutput cfg.ifconfigOutput with
    | Except.error e => ([], Except.error e)
    | Except.ok docker_interface => socat_relay cfg docker_interface ssh_port
  else
    if "ifconfig" ∈ cfg.missing then
      ([], Except.error (SetupErr.dependency "ifconfig"))
    else if !cfg.sudoOk then
      ([Event.require ["ifconfig"]], Except.error SetupErr.privilege)
    else
      let pre : List Event :=
        [Event.require ["ifconfig"],
         Event.checkCall ["sudo", "ifconfig", "lo0", "alias", MAC_LOOPBACK_IP],
         Event.addCleanup "Mac Loopback"]
      let (ev, r) := socat_relay cfg MAC_LOOPBACK_IP ssh_port
      (pre ++ ev, r)

/-- The forwarding specs of the single combined SSH command: the forward
SOCKS leg (local `127.0.0.1:socks_port` to remote port 9050) and the
reverse poll leg (remote port 9055 to local
`127.0.0.1:local_server_port`). -/
def forward_args (socks_port local_server_port : Nat) : List String :=
  ["-L127.0.0.1:" ++ toString socks_port ++ ":127.0.0.1:9050",
   "-R9055:127.0.0.1:" ++ toString local_server_port]

/-- Modelled from the spec: the SSH session's background-command builder,
which wraps a list of forwarding specs into one ssh invocation against the
session's local port.  Defined in the ssh module, which is not part of the
embedded files. -/
def bg_command (ssh_port : Nat) (fwd : List String) : List String :=
  ["ssh", "-p", toString ssh_port] ++ fwd

/-- Leading events of every `connect` run: launch the pod log follower,
allocate the SSH local port (`cfg.freePorts 0`), and start the
cluster-side port-forward from that local port to remote port 8022. -/
def connect_pre_events (cfg : ConnectCfg) : List Event :=
  [Event.launch "kubectl logs"
    ["logs", "-f", cfg.podName, "--container", cfg.containerName],
   Event.findPort (cfg.freePorts 0),
   Event.launch "kubectl port-forward"
    ["port-forward", cfg.podName, toString (cfg.freePorts 0) ++ ":8022"]]

/-- Events of the container branch of `connect` (empty for the other
methods). -/
def connect_container_events (cfg : ConnectCfg) : List Event :=
  if cfg.method = "container" then (container_branch cfg (cfg.freePorts 0)).1
  else []

/-- Outcome of the container branch of `connect` (success for the other
methods). -/
def connect_container_result (cfg : ConnectCfg) : Except SetupErr Unit :=
  if cfg.method = "container" then (container_branch cfg (cfg.freePorts 0)).2
  else Except.ok ()

/-- Events of a successful `connect` run after the SSH session has been
confirmed: expose local services for non-container methods, allocate the
SOCKS and local-server ports, start the local poll server, and open the
single combined forwarding command. -/
def connect_post_tail (cfg : ConnectCfg) : List Event :=
  (if cfg.method = "container" then [] else [Event.expose]) ++
  [Event.findPort (cfg.freePorts 1),
   Event.findPort (cfg.freePorts 2),
   Event.trackBackground (cfg.freePorts 2),
   Event.launch "SSH port forward (socks and proxy poll)"
    (bg_command (cfg.freePorts 0) (forward_args (cfg.freePorts 1) (cfg.freePorts 2)))]

/-- Trailing events of a successful `connect` run: wait for the SSH
session, then everything that depends on it. -/
def connect_post_events (cfg : ConnectCfg) : List Event :=
  Event.sshWait :: connect_post_tail cfg

/-- The embedding of `connect`: the leading events, the container branch
when requested (aborting on its failure), then the trailing events.
Returns the trace and either `(socks_port, ssh local port)` or the
failure. -/
def connect (cfg : ConnectCfg) : List Event × Except SetupErr (Nat × Nat) :=
  match connect_container_result cfg with
  | Except.error e =>
    (connect_pre_events cfg ++ connect_container_events cfg, Except.error e)
  | Except.ok () =>
    (connect_pre_events cfg ++ connect_container_events cfg ++
      connect_post_events cfg,
     Except.ok (cfg.freePorts 1, cfg.freePorts 0))

/-! ## Trace-ordering machinery -/

/-- Recognises the launch of the cluster-side `kubectl port-forward`. -/
def isPortForwardLaunch : Event → Bool
  | Event.launch n _ => n == "kubectl port-forward"
  | _ => false

/-- Recognises the `ssh.wait()` confirmation event. -/
def isSshWait : Event → Bool
  | Event.sshWait => true
  | _ => false

/-- Recognises the `expose_local_services` event. -/
def isExpose : Event → Bool
  | Event.expose => true
  | _ => false

/-- Recognises the launch of the combined SOCKS / proxy-poll forwarding
command. -/
def isSocksForwardLaunch : Event → Bool
  | Event.launch n _ => n == "SSH port forward (socks and proxy poll)"
  | _ => false

/-- Recognises the write of the custom torsocks configuration file. -/
def isTorConfWrite : Event → Bool
  | Event.writeFile n _ => n == "tel_torsocks.conf"
  | _ => false

/-- Recognises a torsocks connectivity probe attempt. -/
def isProbe : Event → Bool
  | Event.probe _ => true
  | _ => false

/-- Recognises the spawn of the user command. -/
def isSpawn : Event → Bool
  | Event.spawn _ => true
  | _ => false

/-- Recognises the allocation of the free local port `n`. -/
def isFindPort (n : Nat) : Event → Bool
  | Event.findPort m => m == n
  | _ => false

/-- Recognises the start of the local poll server on port `n`. -/
def isTrackBackground (n : Nat) : Event → Bool
  | Event.trackBackground m => m == n
  | _ => false

/-- Every event of the trace satisfying `p` occurs strictly before every
event satisfying `q`. -/
def EventsBefore (tr : List Event) (p q : Event → Bool) : Prop :=
  ∀ i, i < tr.length → ∀ j, j < tr.length →
    p (tr.getD i (Event.require [])) = true →
    q (tr.getD j (Event.require [])) = true → i < j

/-- Shape of the events the container branch can emit. -/
def containerEvent : Event → Bool
  | Event.require _ => true
  | Event.checkCall _ => true
  | Event.addCleanup _ => true
  | Event.launch n _ => n == "socat for docker"
  | _ => false

/-- A concrete configuration exercising the non-container path of
`connect`. -/
def connectCfgW : ConnectCfg :=
  { podName := "pod", containerName := "ctr", method := "vpn-tcp",
    platform := "linux", missing := [], ipAddrOutput := "",
    ifconfigOutput := "", sudoOk := true, freePorts := fun k => 1000 + k }

/-- A concrete configuration exercising the `inject-tcp` path of
`run_local_command`, with a probe that succeeds on the first attempt. -/
def localCfgW : LocalCfg :=
  { method := "inject-tcp", platform := "linux", context := "myctx",
    existingPath := "/usr/bin:/home/user/bin", logfileIsStdout := true,
    logfileName := "telepresence.log", runArgs := none,
    probe := fun k => decide (k = 0), listdir := fun _ => [],
    sipBinDir := "/tmp/sip_bin" }

/-- A configuration whose method is neither inject-tcp nor vpn-tcp. -/
def localCfgContainer : LocalCfg :=
  { localCfgW with method := "container" }

/-- A concrete configuration exercising the Linux container path of
`connect`. -/
def containerCfgW : ConnectCfg :=
  { podName := "pod", containerName := "ctr", method := "container",
    platform := "linux", missing := [],
    ipAddrOutput := "inet 172.17.0.1/16 brd 172.17.255.255 scope global docker0",
    ifconfigOutput := "", sudoOk := true, freePorts := fun k => 1000 + k }

/-! ## Generic ordering lemmas -/

theorem getD_mem_of_lt {α : Type} (l : List α) (n : Nat) (d : α)
    (h : n < l.length) : l.getD n d ∈ l := by
  rw [List.getD_eq_getElem?_getD, List.getElem?_eq_getElem h]
  exact List.getElem_mem h

/-- If `p`-events occur only in the first part of a trace and `q`-events
only in the second, then every `p`-event precedes every `q`-event. -/
theorem eventsBefore_append (a b : List Event) (p q : Event → Bool)
    (hpb : ∀ e ∈ b, p e = false) (hqa : ∀ e ∈ a, q e = false) :
    EventsBefore (a ++ b) p q := by
  intro i hi j hj hp hq
  rw [List.length_append] at hi hj
  have hia : i < a.length := by
    rcases Nat.lt_or_ge i a.length with h | h
    · exact h
    · exfalso
      rw [List.getD_append_right a b _ i h] at hp
      have hb : i - a.length < b.length := by omega
      have := hpb _ (getD_mem_of_lt b (i - a.length) (Event.require []) hb)
      rw [this] at hp
      exact Bool.false_ne_true hp
  have hja : a.length ≤ j := by
    rcases Nat.lt_or_ge j a.length with h | h
    · exfalso
      rw [List.getD_append a b _ j h] at hq
      have := hqa _ (getD_mem_of_lt a j (Event.require []) h)
      rw [this] at hq
      exact Bool.false_ne_true hq
    · exact h
  omega

/-- A trace without any `q`-event trivially puts all `p`-events before all
`q`-events. -/
theorem eventsBefore_of_no_q (tr : List Event) (p q : Event → Bool)
    (h : ∀ e ∈ tr, q e = false) : EventsBefore tr p q := by
  intro i hi j hj hp hq
  have := h _ (getD_mem_of_lt tr j (Event.require []) hj)
  rw [this] at hq
  exact absurd hq Bool.false_ne_true

/-! ## Structural lemmas about the traces -/

theorem torsocks_wait_events (probe : Nat → Bool) :
    ∀ fuel attempt, ∀ e ∈ (torsocks_wait probe fuel attempt).1,
      isProbe e = true := by
  intro fuel
  induction fuel with
  | zero => intro a e he; simp [torsocks_wait] at he
  | succ n ih =>
    intro a e he
    by_cases h : probe a
    · simp [torsocks_wait, h] at he
      subst he; rfl
    · simp only [torsocks_wait, h, Bool.false_eq_true, if_false,
        List.mem_cons] at he
      rcases he with rfl | he
      · rfl
      · exact ih (a + 1) e he

theorem sip_copy_events_shape (l : String → List String) (b : String) :
    ∀ e ∈ sip_copy_events l b, ∃ s, e = Event.copyFile s b := by
  intro e he
  simp only [sip_copy_events, List.mem_flatMap, List.mem_map] at he
  obtain ⟨d, _, f, _, rfl⟩ := he
  exact ⟨d ++ "/" ++ f, rfl⟩

theorem torsocks_pre_events_classes (cfg : LocalCfg) (sp : Nat) (up : String) :
    ∀ e ∈ torsocks_pre_events cfg sp up,
      isProbe e = false ∧ isSpawn e = false := by
  intro e he
  simp only [torsocks_pre_events, List.append_assoc, List.mem_append,
    List.mem_cons, List.not_mem_nil, or_false] at he
  rcases he with (rfl | rfl) | he | he
  · exact ⟨rfl, rfl⟩
  · exact ⟨rfl, rfl⟩
  · split at he
    · simp only [List.mem_cons, List.not_mem_nil, or_false] at he
      subst he; exact ⟨rfl, rfl⟩
    · simp at he
  · split at he
    · simp only [List.mem_append, List.mem_cons, List.not_mem_nil,
        or_false] at he
      rcases he with he | rfl
      · obtain ⟨s, rfl⟩ := sip_copy_events_shape cfg.listdir cfg.sipBinDir e he
        exact ⟨rfl, rfl⟩
      · exact ⟨rfl, rfl⟩
    · simp at he

theorem local_env_events_classes (cfg : LocalCfg) :
    ∀ e ∈ local_env_events cfg,
      isProbe e = false ∧ isSpawn e = false ∧ isTorConfWrite e = false := by
  intro e he
  simp only [local_env_events, List.mem_cons, List.not_mem_nil,
    or_false] at he
  rcases he with rfl | rfl | rfl
  · exact ⟨rfl, rfl, rfl⟩
  · exact ⟨rfl, rfl, rfl⟩
  · exact ⟨rfl, rfl, rfl⟩

theorem socat_relay_events (cfg : ConnectCfg) (di : String) (sp : Nat) :
    ∀ e ∈ (socat_relay cfg di sp).1, containerEvent e = true := by
  intro e he
  unfold socat_relay at he
  split at he
  · simp at he
  · simp only [List.mem_cons, List.not_mem_nil, or_false] at he
    rcases he with rfl | rfl
    · rfl
    · rfl

theorem container_branch_events (cfg : ConnectCfg) (sp : Nat) :
    ∀ e ∈ (container_branch cfg sp).1, containerEvent e = true := by
  intro e he
  unfold container_branch at he
  split at he
  · rcases hld : linux_docker_interface cfg.missing cfg.ipAddrOutput
        cfg.ifconfigOutput with e' | di
    · rw [hld] at he
      simp at he
    · rw [hld] at he
      exact socat_relay_events cfg di sp e he
  · split at he
    · simp at he
    · split at he
      · simp only [List.mem_cons, List.not_mem_nil, or_false] at he
        subst he; rfl
      · simp only [List.mem_append, List.mem_cons, List.not_mem_nil,
          or_false] at he
        rcases he with (rfl | rfl | rfl) | he
        · rfl
        · rfl
        · rfl
        · exact socat_relay_events cfg MAC_LOOPBACK_IP sp e he

theorem containerEvent_classes {e : Event} (h : containerEvent e = true) :
    isSshWait e = false ∧ isExpose e = false ∧
      isSocksForwardLaunch e = false ∧ isPortForwardLaunch e = false ∧
      isProbe e = false ∧ (∀ n, isFindPort n e = false) ∧
      (∀ n, isTrackBackground n e = false) := by
  cases e <;>
    simp_all [containerEvent, isSshWait, isExpose, isSocksForwardLaunch,
      isPortForwardLaunch, isProbe, isFindPort, isTrackBackground]

theorem connect_pre_events_classes (cfg : ConnectCfg) :
    ∀ e ∈ connect_pre_events cfg,
      isSshWait e = false ∧ isExpose e = false ∧
        isSocksForwardLaunch e = false := by
  intro e he
  simp only [connect_pre_events, List.mem_cons, List.not_mem_nil,
    or_false] at he
  rcases he with rfl | rfl | rfl
  · exact ⟨rfl, rfl, rfl⟩
  · exact ⟨rfl, rfl, rfl⟩
  · exact ⟨rfl, rfl, rfl⟩

theorem connect_container_events_shape (cfg : ConnectCfg) :
    ∀ e ∈ connect_container_events cfg, containerEvent e = true := by
  intro e he
  unfold connect_container_events at he
  split at he
  · exact container_branch_events cfg _ e he
  · simp at he

theorem connect_post_events_classes (cfg : ConnectCfg) :
    ∀ e ∈ connect_post_events cfg, isPortForwardLaunch e = false := by
  intro e he
  simp only [connect_post_events, connect_post_tail, List.mem_cons,
    List.mem_append, List.not_mem_nil, or_false] at he
  rcases he with rfl | he | (rfl | rfl | rfl | rfl)
  · rfl
  · split at he
    · simp at he
    · simp only [List.mem_cons, List.not_mem_nil, or_false] at he
      subst he; rfl
  · rfl
  · rfl
  · rfl
  · rfl

theorem connect_post_tail_classes (cfg : ConnectCfg) :
    ∀ e ∈ connect_post_tail cfg, isSshWait e = false := by
  intro e he
  simp only [connect_post_tail, List.mem_cons, List.mem_append,
    List.not_mem_nil, or_false] at he
  rcases he with he | (rfl | rfl | rfl | rfl)
  · split at he
    · simp at he
    · simp only [List.mem_cons, List.not_mem_nil, or_false] at he
      subst he; rfl
  · rfl
  · rfl
  · rfl
  · rfl

/-! ## Claim theorems -/

/-- C2: In every run of `connect`, the cluster-side `kubectl port-forward`
to the pod's SSH port (remote port 8022) is started before the SSH
session is confirmed live (`ssh.wait`, which blocks until both the
forward and the session actually answer), and the confirmation precedes
every forwarding leg that depends on the session: the
`expose_local_services` step and the combined SOCKS / proxy-poll
forwarding command. -/
theorem connect_ordering_spec (cfg : ConnectCfg) :
    EventsBefore (connect cfg).1 isPortForwardLaunch isSshWait ∧
    EventsBefore (connect cfg).1 isSshWait isExpose ∧
    EventsBefore (connect cfg).1 isSshWait isSocksForwardLaunch := by
  have hpre := connect_pre_events_classes cfg
  have hcev := connect_container_events_shape cfg
  rcases hres : connect_container_result cfg with er | u
  · have htr : (connect cfg).1 =
        connect_pre_events cfg ++ connect_container_events cfg := by
      simp only [connect, hres]
    rw [htr]
    refine ⟨eventsBefore_of_no_q _ _ _ ?_, eventsBefore_of_no_q _ _ _ ?_,
      eventsBefore_of_no_q _ _ _ ?_⟩
    all_goals
      intro e he
      rcases List.mem_append.mp he with h | h
      · first
        | exact (hpre e h).1
        | exact (hpre e h).2.1
        | exact (hpre e h).2.2
      · first
        | exact (containerEvent_classes (hcev e h)).1
        | exact (containerEvent_classes (hcev e h)).2.1
        | exact (containerEvent_classes (hcev e h)).2.2.1
  · cases u
    have htr : (connect cfg).1 =
        (connect_pre_events cfg ++ connect_container_events cfg) ++
          connect_post_events cfg := by
      simp only [connect, hres]
    have hqa2 : ∀ e ∈ (connect_pre_events cfg ++ connect_container_events cfg)
        ++ [Event.sshWait], isExpose e = false := by
      intro e he
      rcases List.mem_append.mp he with h | h
      · rcases List.mem_append.mp h with h' | h'
        · exact (hpre e h').2.1
        · exact (containerEvent_classes (hcev e h')).2.1
      · simp only [List.mem_cons, List.not_mem_nil, or_false] at h
        subst h; rfl
    have hqa3 : ∀ e ∈ (connect_pre_events cfg ++ connect_container_events cfg)
        ++ [Event.sshWait], isSocksForwardLaunch e = false := by
      intro e he
      rcases List.mem_append.mp he with h | h
      · rcases List.mem_append.mp h with h' | h'
        · exact (hpre e h').2.2
        · exact (containerEvent_classes (hcev e h')).2.2.1
      · simp only [List.mem_cons, List.not_mem_nil, or_false] at h
        subst h; rfl
    have hsplit : (connect cfg).1 =
        ((connect_pre_events cfg ++ connect_container_events cfg) ++
          [Event.sshWait]) ++ connect_post_tail cfg := by
      rw [htr, connect_post_events]
      simp [List.append_assoc]
    refine ⟨?_, ?_, ?_⟩
    · rw [htr]
      refine eventsBefore_append _ _ _ _ (connect_post_events_classes cfg) ?_
      intro e he
      rcases List.mem_append.mp he with h | h
      · exact (hpre e h).1
      · exact (containerEvent_classes (hcev e h)).1
    · rw [hsplit]
      exact eventsBefore_append _ _ _ _ (connect_post_tail_classes cfg) hqa2
    · rw [hsplit]
      exact eventsBefore_append _ _ _ _ (connect_post_tail_classes cfg) hqa3

/-- Witness for `connect_ordering_spec` at a concrete configuration. -/
theorem connect_ordering_spec_witness :
    EventsBefore (connect connectCfgW).1 isPortForwardLaunch isSshWait ∧
    EventsBefore (connect connectCfgW).1 isSshWait isExpose ∧
    EventsBefore (connect connectCfgW).1 isSshWait isSocksForwardLaunch :=
  connect_ordering_spec connectCfgW

theorem connect_pre_events_ports (cfg : ConnectCfg) (n : Nat)
    (h : n ≠ cfg.freePorts 0) :
    ∀ e ∈ connect_pre_events cfg,
      isFindPort n e = false ∧ isTrackBackground n e = false := by
  intro e he
  simp only [connect_pre_events, List.mem_cons, List.not_mem_nil,
    or_false] at he
  rcases he with rfl | rfl | rfl
  · exact ⟨rfl, rfl⟩
  · refine ⟨?_, rfl⟩
    simp only [isFindPort, beq_eq_false_iff_ne]
    exact fun hh => h hh.symm
  · exact ⟨rfl, rfl⟩

/-- C1: For every proxy method, a successful `connect` run allocates two
fresh local ports distinct from each other and from the SSH local port
(SOCKS listener `freePorts 1`, local-server poll listener `freePorts 2`)
only after the SSH session has been confirmed (`ssh.wait`), starts the
local poll server on the poll port, launches one single SSH forwarding
command carrying both the forward SOCKS leg (`127.0.0.1:socks` to remote
9050) and the reverse poll leg (remote 9055 to `127.0.0.1:poll`), and
returns the SOCKS port together with the SSH handle's local port. -/
theorem connect_tunnel_legs_spec (cfg : ConnectCfg)
    (hinj : Function.Injective cfg.freePorts)
    (socks_port ssh_port : Nat)
    (hok : (connect cfg).2 = Except.ok (socks_port, ssh_port)) :
    socks_port = cfg.freePorts 1 ∧ ssh_port = cfg.freePorts 0 ∧
    socks_port ≠ cfg.freePorts 2 ∧ socks_port ≠ ssh_port ∧
    cfg.freePorts 2 ≠ ssh_port ∧
    Event.trackBackground (cfg.freePorts 2) ∈ (connect cfg).1 ∧
    Event.launch "SSH port forward (socks and proxy poll)"
      (bg_command ssh_port (forward_args socks_port (cfg.freePorts 2)))
      ∈ (connect cfg).1 ∧
    EventsBefore (connect cfg).1 isSshWait (isFindPort (cfg.freePorts 1)) ∧
    EventsBefore (connect cfg).1 isSshWait (isFindPort (cfg.freePorts 2)) ∧
    EventsBefore (connect cfg).1 isSshWait
      (isTrackBackground (cfg.freePorts 2)) ∧
    EventsBefore (connect cfg).1 isSshWait isSocksForwardLaunch := by
  have hpre := connect_pre_events_classes cfg
  have hcev := connect_container_events_shape cfg
  rcases hres : connect_container_result cfg with er | u
  · exfalso
    simp only [connect, hres] at hok
    exact Except.noConfusion hok
  · cases u
    have h2 : (connect cfg).2 = Except.ok (cfg.freePorts 1, cfg.freePorts 0) := by
      simp only [connect, hres]
    rw [h2] at hok
    simp only [Except.ok.injEq, Prod.mk.injEq] at hok
    obtain ⟨hs, hh⟩ := hok.symm
    subst hs
    subst hh
    have hne10 : cfg.freePorts 1 ≠ cfg.freePorts 0 := fun h => by
      have := hinj h; omega
    have hne20 : cfg.freePorts 2 ≠ cfg.freePorts 0 := fun h => by
      have := hinj h; omega
    have hne12 : cfg.freePorts 1 ≠ cfg.freePorts 2 := fun h => by
      have := hinj h; omega
    have htr : (connect cfg).1 =
        (connect_pre_events cfg ++ connect_container_events cfg) ++
          connect_post_events cfg := by
      simp only [connect, hres]
    have hsplit : (connect cfg).1 =
        ((connect_pre_events cfg ++ connect_container_events cfg) ++
          [Event.sshWait]) ++ connect_post_tail cfg := by
      rw [htr, connect_post_events]
      simp [List.append_assoc]
    have hmem3 : ∀ e ∈ (connect_pre_events cfg ++
        connect_container_events cfg) ++ [Event.sshWait],
        e ∈ connect_pre_events cfg ∨ containerEvent e = true ∨
          e = Event.sshWait := by
      intro e he
      rcases List.mem_append.mp he with h | h
      · rcases List.mem_append.mp h with h' | h'
        · exact Or.inl h'
        · exact Or.inr (Or.inl (hcev e h'))
      · simp only [List.mem_cons, List.not_mem_nil, or_false] at h
        exact Or.inr (Or.inr h)
    refine ⟨rfl, rfl, hne12, hne10, hne20, ?_, ?_, ?_, ?_, ?_, ?_⟩
    · rw [htr]
      simp [connect_post_events, connect_post_tail]
    · rw [htr]
      simp [connect_post_events, connect_post_tail]
    · rw [hsplit]
      refine eventsBefore_append _ _ _ _ (connect_post_tail_classes cfg) ?_
      intro e he
      rcases hmem3 e he with h | h | rfl
      · exact (connect_pre_events_ports cfg _ hne10 e h).1
      · exact (containerEvent_classes h).2.2.2.2.2.1 _
      · rfl
    · rw [hsplit]
      refine eventsBefore_append _ _ _ _ (connect_post_tail_classes cfg) ?_
      intro e he
      rcases hmem3 e he with h | h | rfl
      · exact (connect_pre_events_ports cfg _ hne20 e h).1
      · exact (containerEvent_classes h).2.2.2.2.2.1 _
      · rfl
    · rw [hsplit]
      refine eventsBefore_append _ _ _ _ (connect_post_tail_classes cfg) ?_
      intro e he
      rcases hmem3 e he with h | h | rfl
      · exact (connect_pre_events_ports cfg _ hne20 e h).2
      · exact (containerEvent_classes h).2.2.2.2.2.2 _
      · rfl
    · rw [hsplit]
      refine eventsBefore_append _ _ _ _ (connect_post_tail_classes cfg) ?_
      intro e he
      rcases hmem3 e he with h | h | rfl
      · exact (hpre e h).2.2
      · exact (containerEvent_classes h).2.2.1
      · rfl

/-- Witness for `connect_tunnel_legs_spec`: the concrete configuration
`connectCfgW` with the injective port supply `1000 + k`. -/
theorem connect_tunnel_legs_spec_witness :
    (connect connectCfgW).2 = Except.ok (1001, 1000) ∧
    (1001 = connectCfgW.freePorts 1 ∧ 1000 = connectCfgW.freePorts 0 ∧
      (1001 : Nat) ≠ connectCfgW.freePorts 2 ∧ (1001 : Nat) ≠ 1000 ∧
      connectCfgW.freePorts 2 ≠ 1000 ∧
      Event.trackBackground (connectCfgW.freePorts 2) ∈ (connect connectCfgW).1 ∧
      Event.launch "SSH port forward (socks and proxy poll)"
        (bg_command 1000 (forward_args 1001 (connectCfgW.freePorts 2)))
        ∈ (connect connectCfgW).1 ∧
      EventsBefore (connect connectCfgW).1 isSshWait
        (isFindPort (connectCfgW.freePorts 1)) ∧
      EventsBefore (connect connectCfgW).1 isSshWait
        (isFindPort (connectCfgW.freePorts 2)) ∧
      EventsBefore (connect connectCfgW).1 isSshWait
        (isTrackBackground (connectCfgW.freePorts 2)) ∧
      EventsBefore (connect connectCfgW).1 isSshWait isSocksForwardLaunch) :=
  ⟨rfl, connect_tunnel_legs_spec connectCfgW
    (fun a b h => by simp only [connectCfgW] at h; omega) 1001 1000 rfl⟩

theorem torsocks_wait_success_aux (probe : Nat → Bool) :
    ∀ m fuel a, (∀ k < m, probe (a + k) = false) → probe (a + m) = true →
      m < fuel →
      (torsocks_wait probe fuel a).2 = Except.ok (a + m + 1) ∧
      (torsocks_wait probe fuel a).1.length = m + 1 := by
  intro m
  induction m with
  | zero =>
    intro fuel a hfail hsucc hlt
    match fuel, hlt with
    | fuel + 1, _ =>
      rw [Nat.add_zero] at hsucc
      simp [torsocks_wait, hsucc]
  | succ n ih =>
    intro fuel a hfail hsucc hlt
    match fuel, hlt with
    | fuel + 1, hlt =>
      have h0 : probe a = false := by
        have := hfail 0 (by omega)
        rwa [Nat.add_zero] at this
      have hrec := ih fuel (a + 1)
        (fun k hk => by
          have := hfail (k + 1) (by omega)
          rwa [show a + (k + 1) = a + 1 + k by omega] at this)
        (by rwa [show a + 1 + n = a + (n + 1) by omega])
        (by omega)
      simp only [torsocks_wait, h0, Bool.false_eq_true, if_false,
        List.length_cons]
      refine ⟨?_, by rw [hrec.2]⟩
      rw [hrec.1]
      congr 1
      omega

theorem torsocks_wait_timeout_aux (probe : Nat → Bool) :
    ∀ fuel a, (∀ k < fuel, probe (a + k) = false) →
      (torsocks_wait probe fuel a).2 =
        Except.error
          (LocalErr.proxyNotReady "SOCKS network proxying failed to start...") ∧
      (torsocks_wait probe fuel a).1.length = fuel := by
  intro fuel
  induction fuel with
  | zero => intro a _; exact ⟨rfl, rfl⟩
  | succ n ih =>
    intro a h
    have h0 : probe a = false := by
      have := h 0 (by omega)
      rwa [Nat.add_zero] at this
    have hrec := ih (a + 1) (fun k hk => by
      have := h (k + 1) (by omega)
      rwa [show a + (k + 1) = a + 1 + k by omega] at this)
    simp only [torsocks_wait, h0, Bool.false_eq_true, if_false,
      List.length_cons]
    exact ⟨hrec.1, by rw [hrec.2]⟩

/-- C3: The torsocks readiness wait retries the probe every
`torsocks_interval_tenths` (0.1 s) until `torsocks_timeout_tenths` (10 s)
of elapsed time: a probe that first succeeds on attempt `n + 1` with
`(n + 1) × interval` below the timeout makes the wait return success after
exactly `n + 1` probe attempts, while a probe that never succeeds makes it
raise the proxy-not-ready error after exactly `torsocks_timeout_tenths`
attempts — each failed attempt sleeping one interval, i.e. after ten
seconds of elapsed time, neither immediately nor unboundedly. -/
theorem torsocks_wait_spec (probe : Nat → Bool) (n : Nat)
    (h1 : ∀ k < n, probe k = false) (h2 : probe n = true)
    (h3 : (n + 1) * torsocks_interval_tenths < torsocks_timeout_tenths) :
    ((torsocks_wait probe torsocks_timeout_tenths 0).2 = Except.ok (n + 1) ∧
     (torsocks_wait probe torsocks_timeout_tenths 0).1.length = n + 1) ∧
    ∀ q : Nat → Bool, (∀ k, q k = false) →
      (torsocks_wait q torsocks_timeout_tenths 0).2 =
        Except.error
          (LocalErr.proxyNotReady "SOCKS network proxying failed to start...") ∧
      (torsocks_wait q torsocks_timeout_tenths 0).1.length =
        torsocks_timeout_tenths := by
  constructor
  · have hlt : n < torsocks_timeout_tenths := by
      have : torsocks_interval_tenths = 1 := rfl
      rw [this] at h3
      omega
    have := torsocks_wait_success_aux probe n torsocks_timeout_tenths 0
      (fun k hk => by rw [Nat.zero_add]; exact h1 k hk)
      (by rw [Nat.zero_add]; exact h2) hlt
    rwa [Nat.zero_add] at this
  · intro q hq
    exact torsocks_wait_timeout_aux q torsocks_timeout_tenths 0
      (fun k _ => hq (0 + k))

/-- Witness for `torsocks_wait_spec`: a probe succeeding on its third
attempt. -/
theorem torsocks_wait_spec_witness :
    ((torsocks_wait (fun k => decide (k = 2)) torsocks_timeout_tenths 0).2 =
        Except.ok 3 ∧
      (torsocks_wait (fun k => decide (k = 2))
        torsocks_timeout_tenths 0).1.length = 3) ∧
    ∀ q : Nat → Bool, (∀ k, q k = false) →
      (torsocks_wait q torsocks_timeout_tenths 0).2 =
        Except.error
          (LocalErr.proxyNotReady "SOCKS network proxying failed to start...") ∧
      (torsocks_wait q torsocks_timeout_tenths 0).1.length =
        torsocks_timeout_tenths :=
  torsocks_wait_spec (fun k => decide (k = 2)) 2 (by decide) (by decide)
    (by decide)

theorem isProbe_classes {e : Event} (h : isProbe e = true) :
    isTorConfWrite e = false ∧ isSpawn e = false := by
  cases e <;> simp_all [isProbe, isTorConfWrite, isSpawn]

theorem torsocks_wait_ne_nil (probe : Nat → Bool) (fuel a : Nat)
    (h : 0 < fuel) : (torsocks_wait probe fuel a).1 ≠ [] := by
  match fuel, h with
  | f + 1, _ =>
    by_cases hp : probe a <;> simp [torsocks_wait, hp]

/-- C4: In every `inject-tcp` launch the torsocks configuration file is
written, the connectivity probe runs at least once, every probe attempt
happens after the configuration write and before any user-command spawn,
and if the probe never completes one successful round-trip the launch
fails with the proxy-not-ready error and no user command is ever
spawned. -/
theorem inject_tcp_ordering_spec (cfg : LocalCfg) (socks_port : Nat)
    (h : cfg.method = "inject-tcp") :
    Event.writeFile "tel_torsocks.conf" (torsocks_config socks_port) ∈
      (run_local_command cfg socks_port).1 ∧
    (∃ e ∈ (run_local_command cfg socks_port).1, isProbe e = true) ∧
    EventsBefore (run_local_command cfg socks_port).1 isTorConfWrite isProbe ∧
    EventsBefore (run_local_command cfg socks_port).1 isProbe isSpawn ∧
    ((∀ k < torsocks_timeout_tenths, cfg.probe k = false) →
      (run_local_command cfg socks_port).2 =
        Except.error
          (LocalErr.proxyNotReady "SOCKS network proxying failed to start...") ∧
      ∀ e ∈ (run_local_command cfg socks_port).1, isSpawn e = false) := by
  have henv := local_env_events_classes cfg
  have hpre := torsocks_pre_events_classes cfg socks_port "unsup_bin"
  have hwev := torsocks_wait_events cfg.probe torsocks_timeout_tenths 0
  have hmemw : ∀ tr : List Event,
      (run_local_command cfg socks_port).1 =
        local_env_events cfg ++
          (torsocks_pre_events cfg socks_port "unsup_bin" ++
            (torsocks_wait cfg.probe torsocks_timeout_tenths 0).1) ++ tr →
      Event.writeFile "tel_torsocks.conf" (torsocks_config socks_port) ∈
        (run_local_command cfg socks_port).1 ∧
      (∃ e ∈ (run_local_command cfg socks_port).1, isProbe e = true) := by
    intro tr htr
    constructor
    · rw [htr]
      simp [torsocks_pre_events]
    · obtain ⟨e, hel⟩ := List.exists_mem_of_ne_nil _
        (torsocks_wait_ne_nil cfg.probe torsocks_timeout_tenths 0 (by decide))
      refine ⟨e, ?_, hwev e hel⟩
      rw [htr]
      simp only [List.append_assoc, List.mem_append]
      exact Or.inr (Or.inr (Or.inl hel))
  rcases hw : (torsocks_wait cfg.probe torsocks_timeout_tenths 0).2 with er | v
  · have htr : (run_local_command cfg socks_port).1 =
        local_env_events cfg ++
          (torsocks_pre_events cfg socks_port "unsup_bin" ++
            (torsocks_wait cfg.probe torsocks_timeout_tenths 0).1) ++ [] := by
      simp [run_local_command, h, setup_torsocks, hw, Except.map]
    have hres : (run_local_command cfg socks_port).2 = Except.error er := by
      simp [run_local_command, h, setup_torsocks, hw, Except.map]
    obtain ⟨hmem1, hmem2⟩ := hmemw [] htr
    rw [List.append_nil] at htr
    have hnospawn : ∀ e ∈ (run_local_command cfg socks_port).1,
        isSpawn e = false := by
      intro e he
      rw [htr] at he
      rcases List.mem_append.mp he with h' | h'
      · exact (henv e h').2.1
      · rcases List.mem_append.mp h' with h'' | h''
        · exact (hpre e h'').2
        · exact (isProbe_classes (hwev e h'')).2
    refine ⟨hmem1, hmem2, ?_, ?_, ?_⟩
    · rw [htr, show local_env_events cfg ++
          (torsocks_pre_events cfg socks_port "unsup_bin" ++
            (torsocks_wait cfg.probe torsocks_timeout_tenths 0).1) =
          (local_env_events cfg ++
            torsocks_pre_events cfg socks_port "unsup_bin") ++
            (torsocks_wait cfg.probe torsocks_timeout_tenths 0).1
        from by simp [List.append_assoc]]
      refine eventsBefore_append _ _ _ _ ?_ ?_
      · exact fun e he => (isProbe_classes (hwev e he)).1
      · intro e he
        rcases List.mem_append.mp he with h' | h'
        · exact (henv e h').1
        · exact (hpre e h').1
    · exact eventsBefore_of_no_q _ _ _ hnospawn
    · intro hnever
      have := (torsocks_wait_timeout_aux cfg.probe torsocks_timeout_tenths 0
        (fun k hk => by rw [Nat.zero_add]; exact hnever k hk)).1
      rw [hw] at this
      simp only [Except.error.injEq] at this
      rw [hres, this]
      exact ⟨rfl, hnospawn⟩
  · have htr : (run_local_command cfg socks_port).1 =
        local_env_events cfg ++
          (torsocks_pre_events cfg socks_port "unsup_bin" ++
            (torsocks_wait cfg.probe torsocks_timeout_tenths 0).1) ++
          [Event.spawn ("torsocks" :: local_command cfg),
           Event.addCleanup "Terminate local process"] := by
      simp [run_local_command, h, setup_torsocks, hw, Except.map]
    obtain ⟨hmem1, hmem2⟩ := hmemw _ htr
    refine ⟨hmem1, hmem2, ?_, ?_, ?_⟩
    · rw [htr, show local_env_events cfg ++
          (torsocks_pre_events cfg socks_port "unsup_bin" ++
            (torsocks_wait cfg.probe torsocks_timeout_tenths 0).1) ++
          [Event.spawn ("torsocks" :: local_command cfg),
           Event.addCleanup "Terminate local process"] =
          (local_env_events cfg ++
            torsocks_pre_events cfg socks_port "unsup_bin") ++
            ((torsocks_wait cfg.probe torsocks_timeout_tenths 0).1 ++
              [Event.spawn ("torsocks" :: local_command cfg),
               Event.addCleanup "Terminate local process"])
        from by simp [List.append_assoc]]
      refine eventsBefore_append _ _ _ _ ?_ ?_
      · intro e he
        rcases List.mem_append.mp he with h' | h'
        · exact (isProbe_classes (hwev e h')).1
        · simp only [List.mem_cons, List.not_mem_nil, or_false] at h'
          rcases h' with rfl | rfl
          · rfl
          · rfl
      · intro e he
        rcases List.mem_append.mp he with h' | h'
        · exact (henv e h').1
        · exact (hpre e h').1
    · rw [htr]
      refine eventsBefore_append _ _ _ _ ?_ ?_
      · intro e he
        simp only [List.mem_cons, List.not_mem_nil, or_false] at he
        rcases he with rfl | rfl
        · rfl
        · rfl
      · intro e he
        rcases List.mem_append.mp he with h' | h'
        · exact (henv e h').2.1
        · rcases List.mem_append.mp h' with h'' | h''
          · exact (hpre e h'').2
          · exact (isProbe_classes (hwev e h'')).2
    · intro hnever
      exfalso
      have := (torsocks_wait_timeout_aux cfg.probe torsocks_timeout_tenths 0
        (fun k hk => by rw [Nat.zero_add]; exact hnever k hk)).1
      rw [hw] at this
      exact Except.noConfusion this

/-- Witness for `inject_tcp_ordering_spec` at `localCfgW`. -/
theorem inject_tcp_ordering_spec_witness :
    Event.writeFile "tel_torsocks.conf" (torsocks_config 9998) ∈
      (run_local_command localCfgW 9998).1 ∧
    (∃ e ∈ (run_local_command localCfgW 9998).1, isProbe e = true) ∧
    EventsBefore (run_local_command localCfgW 9998).1 isTorConfWrite isProbe ∧
    EventsBefore (run_local_command localCfgW 9998).1 isProbe isSpawn ∧
    ((∀ k < torsocks_timeout_tenths, localCfgW.probe k = false) →
      (run_local_command localCfgW 9998).2 =
        Except.error
          (LocalErr.proxyNotReady "SOCKS network proxying failed to start...") ∧
      ∀ e ∈ (run_local_command localCfgW 9998).1, isSpawn e = false) :=
  inject_tcp_ordering_spec localCfgW 9998 rfl

/-- C5: For the Container method on Linux, the interface resolver prefers
`ip` over `ifconfig`: with `ip` available the binding is the same as with
both tools available; with both absent it fails with the dependency
error; and when the chosen tool's output holds no IPv4-looking token it
fails with the resolution error. -/
theorem linux_interface_resolution_spec (ipOut ifconfigOut : String)
    (missing : List String) :
    ("ip" ∉ missing →
      linux_docker_interface missing ipOut ifconfigOut =
        linux_docker_interface [] ipOut ifconfigOut) ∧
    ("ip" ∈ missing → "ifconfig" ∈ missing →
      linux_docker_interface missing ipOut ifconfigOut =
        Except.error (SetupErr.dependency docker_tools_msg)) ∧
    ("ip" ∉ missing → findAllIPv4 ipOut = [] →
      linux_docker_interface missing ipOut ifconfigOut =
        Except.error (SetupErr.resolution "No interface for docker found")) ∧
    ("ip" ∈ missing → "ifconfig" ∉ missing → findAllIPv4 ifconfigOut = [] →
      linux_docker_interface missing ipOut ifconfigOut =
        Except.error (SetupErr.resolution "No interface for docker found")) ∧
    ("ip" ∉ missing → ∀ i rest, findAllIPv4 ipOut = i :: rest →
      linux_docker_interface missing ipOut ifconfigOut = Except.ok i) := by
  refine ⟨?_, ?_, ?_, ?_, ?_⟩
  · intro hip
    simp [linux_docker_interface, linux_docker_interfaces, hip]
  · intro hip hif
    simp [linux_docker_interface, linux_docker_interfaces, hip, hif]
  · intro hip hempty
    simp [linux_docker_interface, linux_docker_interfaces, hip, hempty]
  · intro hip hif hempty
    simp [linux_docker_interface, linux_docker_interfaces, hip, hif, hempty]
  · intro hip i rest hcons
    simp [linux_docker_interface, linux_docker_interfaces, hip, hcons]

/-- Witness for `linux_interface_resolution_spec` at concrete tool
outputs. -/
theorem linux_interface_resolution_spec_witness :
    (linux_docker_interface ["ifconfig"]
        "inet 172.17.0.1/16 brd 172.17.255.255" "" =
      linux_docker_interface [] "inet 172.17.0.1/16 brd 172.17.255.255" "") ∧
    (linux_docker_interface ["ip", "ifconfig"]
        "inet 172.17.0.1/16 brd 172.17.255.255" "" =
      Except.error (SetupErr.dependency docker_tools_msg)) ∧
    (linux_docker_interface ["ifconfig"] "mtu 1500" "" =
      Except.error (SetupErr.resolution "No interface for docker found")) ∧
    (linux_docker_interface ["ip"] "" "mtu 1500" =
      Except.error (SetupErr.resolution "No interface for docker found")) ∧
    (linux_docker_interface ["ifconfig"]
        "inet 172.17.0.1/16 brd 172.17.255.255" "" =
      Except.ok "172.17.0.1") :=
  ⟨(linux_interface_resolution_spec "inet 172.17.0.1/16 brd 172.17.255.255" ""
      ["ifconfig"]).1 (by decide),
   (linux_interface_resolution_spec "inet 172.17.0.1/16 brd 172.17.255.255" ""
      ["ip", "ifconfig"]).2.1 (by decide) (by decide),
   (linux_interface_resolution_spec "mtu 1500" "" ["ifconfig"]).2.2.1
      (by decide) (by decide),
   (linux_interface_resolution_spec "" "mtu 1500" ["ip"]).2.2.2.1
      (by decide) (by decide) (by decide),
   (linux_interface_resolution_spec "inet 172.17.0.1/16 brd 172.17.255.255" ""
      ["ifconfig"]).2.2.2.2 (by decide) "172.17.0.1" ["172.17.255.255"]
      (by decide)⟩

/-- C6: For method Container on Linux with `ip` available and docker0's
first IPv4-looking token being 172.17.0.1, interface resolution returns
the binding 172.17.0.1, and socat is launched listening on
`(ssh local port, 172.17.0.1)` forwarding to
`(127.0.0.1, ssh local port)` — the same local port on both sides, as
`socat_args` wires `cfg.freePorts 0` into both legs. -/
theorem container_linux_socat_spec (cfg : ConnectCfg)
    (hm : cfg.method = "container") (hp : cfg.platform = "linux")
    (hip : "ip" ∉ cfg.missing) (hsoc : "socat" ∉ cfg.missing)
    (rest : List String)
    (hout : findAllIPv4 cfg.ipAddrOutput = "172.17.0.1" :: rest) :
    linux_docker_interface cfg.missing cfg.ipAddrOutput cfg.ifconfigOutput =
      Except.ok "172.17.0.1" ∧
    Event.launch "socat for docker"
      (socat_args "172.17.0.1" (cfg.freePorts 0)) ∈ (connect cfg).1 := by
  have hbind : linux_docker_interface cfg.missing cfg.ipAddrOutput
      cfg.ifconfigOutput = Except.ok "172.17.0.1" := by
    simp [linux_docker_interface, linux_docker_interfaces, hip, hout]
  have hcb : container_branch cfg (cfg.freePorts 0) =
      ([Event.require ["socat"],
        Event.launch "socat for docker"
          (socat_args "172.17.0.1" (cfg.freePorts 0))],
       Except.ok ()) := by
    simp [container_branch, hp, hbind, socat_relay, hsoc]
  have hres : connect_container_result cfg = Except.ok () := by
    simp [connect_container_result, hm, hcb]
  have htr : (connect cfg).1 =
      connect_pre_events cfg ++ connect_container_events cfg ++
        connect_post_events cfg := by
    simp only [connect, hres]
  refine ⟨hbind, ?_⟩
  rw [htr]
  simp [connect_container_events, hm, hcb]

/-- Witness for `container_linux_socat_spec` at `containerCfgW`. -/
theorem container_linux_socat_spec_witness :
    linux_docker_interface containerCfgW.missing containerCfgW.ipAddrOutput
      containerCfgW.ifconfigOutput = Except.ok "172.17.0.1" ∧
    Event.launch "socat for docker"
      (socat_args "172.17.0.1" (containerCfgW.freePorts 0)) ∈
        (connect containerCfgW).1 :=
  container_linux_socat_spec containerCfgW rfl rfl (by decide) (by decide)
    ["172.17.255.255"] (by decide)

theorem run_local_command_env_head (cfg : LocalCfg) (sp : Nat) :
    ∃ rest, (run_local_command cfg sp).1 = local_env_events cfg ++ rest := by
  by_cases h1 : cfg.method = "inject-tcp"
  · rcases hw : (setup_torsocks cfg sp "unsup_bin").2 with er | v
    · exact ⟨(setup_torsocks cfg sp "unsup_bin").1,
        by simp [run_local_command, h1, hw]⟩
    · cases v
      exact ⟨(setup_torsocks cfg sp "unsup_bin").1 ++
          [Event.spawn ("torsocks" :: local_command cfg),
           Event.addCleanup "Terminate local process"],
        by simp [run_local_command, h1, hw, List.append_assoc]⟩
  · by_cases h2 : cfg.method = "vpn-tcp"
    · exact ⟨[Event.launch "sshuttle" [],
        Event.spawn (local_command cfg),
        Event.addCleanup "Terminate local process"],
        by simp [run_local_command, h1, h2]⟩
    · exact ⟨[Event.addCleanup "Terminate local process"],
        by simp [run_local_command, h1, h2]⟩

/-- C7: The stub generator shadows exactly ping and traceroute when DNS
can be proxied and additionally nslookup, dig and host exactly when it
cannot; each stub is written with the executable mode 0o755 and its script
prints a message naming the shadowed command and exits with status 55; and
the launcher shadows the DNS tools exactly for the `inject-tcp` method. -/
theorem unsupported_tools_spec :
    ((get_unsupported_tools true).map ToolStub.name = ["ping", "traceroute"]) ∧
    ((get_unsupported_tools false).map ToolStub.name =
      ["ping", "traceroute", "nslookup", "dig", "host"]) ∧
    (∀ b : Bool, ∀ s ∈ get_unsupported_tools b,
      s.mode = 0o755 ∧
      run_stub_script s.content =
        ([s.name ++ " is not supported under Telepresence.",
          "See https://telepresence.io/reference/limitations.html for details."],
         55)) ∧
    (∀ (cfg : LocalCfg) (sp : Nat),
      Event.toolStubs (!(cfg.method == "inject-tcp")) ∈
        (run_local_command cfg sp).1) := by
  refine ⟨by decide, by decide, ?_, ?_⟩
  · intro b
    cases b <;> decide
  · intro cfg sp
    obtain ⟨rest, htr⟩ := run_local_command_env_head cfg sp
    rw [htr]
    exact List.mem_append_left _ (by simp [local_env_events])

/-- Witness for `unsupported_tools_spec`: the dig stub generated when DNS
cannot be proxied. -/
theorem unsupported_tools_spec_witness :
    (⟨"dig", nice_failure "dig", 0o755⟩ : ToolStub).mode = 0o755 ∧
    run_stub_script (⟨"dig", nice_failure "dig", 0o755⟩ : ToolStub).content =
      ([(⟨"dig", nice_failure "dig", 0o755⟩ : ToolStub).name ++
          " is not supported under Telepresence.",
        "See https://telepresence.io/reference/limitations.html for details."],
       55) :=
  unsupported_tools_spec.2.2.1 false ⟨"dig", nice_failure "dig", 0o755⟩
    (by decide)

/-- C8 counterexample: at a concrete input the first entry of the PATH
returned by `sip_workaround` is the unsupported-tools stub directory, not
the temporary directory the protected binaries were copied into — that
directory is only the second entry. -/
theorem sip_workaround_first_entry_cex :
    sip_workaround "/usr/bin:/home/user/bin" "/tmp/unsup_bin"
        "/tmp/sip_bin" =
      "/tmp/unsup_bin:/tmp/sip_bin:/home/user/bin" ∧
    (sip_workaround_paths "/usr/bin:/home/user/bin" "/tmp/unsup_bin"
        "/tmp/sip_bin").head? = some "/tmp/unsup_bin" ∧
    "/tmp/unsup_bin" ≠ "/tmp/sip_bin" := by
  refine ⟨?_, rfl, by decide⟩
  decide

/-- C8 (amended): the protected-path workaround copies the executables of
the four protected directories into the one temporary copy directory and
prepends that directory to the search path — but behind the
unsupported-tools stub directory, so the resulting PATH's first entry is
the stub directory and its second entry is the copy directory.  On the
macOS-class platform the rewritten PATH is installed into the
environment by `setup_torsocks`. -/
theorem sip_workaround_amended_spec (listdir : String → List String)
    (existing unsupported bin_dir : String) :
    (∀ e ∈ sip_copy_events listdir bin_dir,
      ∃ d ∈ sip_protected, ∃ f, e = Event.copyFile (d ++ "/" ++ f) bin_dir) ∧
    sip_workaround existing unsupported bin_dir =
      String.intercalate ":"
        (sip_workaround_paths existing unsupported bin_dir) ∧
    (sip_workaround_paths existing unsupported bin_dir).head? =
      some unsupported ∧
    (sip_workaround_paths existing unsupported bin_dir).get? 1 =
      some bin_dir ∧
    (∀ (cfg : LocalCfg) (sp : Nat), cfg.platform = "darwin" →
      Event.setEnv "PATH"
        (sip_workaround cfg.existingPath "unsup_bin" cfg.sipBinDir) ∈
        (setup_torsocks cfg sp "unsup_bin").1) := by
  refine ⟨?_, rfl, rfl, rfl, ?_⟩
  · intro e he
    simp only [sip_copy_events, List.mem_flatMap, List.mem_map] at he
    obtain ⟨d, hd, f, _, rfl⟩ := he
    exact ⟨d, hd, f, rfl⟩
  · intro cfg sp hdar
    simp [setup_torsocks, torsocks_pre_events, hdar]

/-- Witness for `sip_workaround_amended_spec` at a concrete listing and
concrete paths. -/
theorem sip_workaround_amended_spec_witness :
    (∀ e ∈ sip_copy_events (fun _ => ["ls"]) "/tmp/sip_bin",
      ∃ d ∈ sip_protected, ∃ f,
        e = Event.copyFile (d ++ "/" ++ f) "/tmp/sip_bin") ∧
    sip_workaround "/usr/bin:/home/user/bin" "/tmp/unsup_bin"
        "/tmp/sip_bin" =
      String.intercalate ":"
        (sip_workaround_paths "/usr/bin:/home/user/bin" "/tmp/unsup_bin"
          "/tmp/sip_bin") ∧
    (sip_workaround_paths "/usr/bin:/home/user/bin" "/tmp/unsup_bin"
        "/tmp/sip_bin").head? = some "/tmp/unsup_bin" ∧
    (sip_workaround_paths "/usr/bin:/home/user/bin" "/tmp/unsup_bin"
        "/tmp/sip_bin").get? 1 = some "/tmp/sip_bin" ∧
    (∀ (cfg : LocalCfg) (sp : Nat), cfg.platform = "darwin" →
      Event.setEnv "PATH"
        (sip_workaround cfg.existingPath "unsup_bin" cfg.sipBinDir) ∈
        (setup_torsocks cfg sp "unsup_bin").1) :=
  sip_workaround_amended_spec (fun _ => ["ls"]) "/usr/bin:/home/user/bin"
    "/tmp/unsup_bin" "/tmp/sip_bin"

/-- C9 counterexample: for the container method `run_local_command` does
raise the unbound-variable error without spawning anything, but the
terminate-local-process cleanup HAS been registered before the error is
raised, contradicting the claim that the error precedes any cleanup
registration. -/
theorem run_local_other_method_cex :
    (run_local_command localCfgContainer 9998).2 =
      Except.error LocalErr.unboundLocal ∧
    Event.addCleanup "Terminate local process" ∈
      (run_local_command localCfgContainer 9998).1 := by
  constructor
  · rfl
  · decide

/-- C9 (amended): for every method other than inject-tcp and vpn-tcp,
`run_local_command` raises the unbound-variable error (its process
variable is never bound) and no user process is ever spawned; the
spawn path is confined to the inject-tcp and vpn-tcp branches.  However,
the terminate-local-process cleanup is still registered before the error
is raised, because the registration precedes the failing `return p`. -/
theorem run_local_other_method_spec (cfg : LocalCfg) (sp : Nat)
    (h1 : cfg.method ≠ "inject-tcp") (h2 : cfg.method ≠ "vpn-tcp") :
    (run_local_command cfg sp).2 = Except.error LocalErr.unboundLocal ∧
    (∀ e ∈ (run_local_command cfg sp).1, isSpawn e = false) ∧
    Event.addCleanup "Terminate local process" ∈
      (run_local_command cfg sp).1 := by
  have htr : run_local_command cfg sp =
      (local_env_events cfg ++ [Event.addCleanup "Terminate local process"],
       Except.error LocalErr.unboundLocal) := by
    simp [run_local_command, h1, h2]
  rw [htr]
  refine ⟨rfl, ?_, by simp⟩
  intro e he
  rcases List.mem_append.mp he with h' | h'
  · exact (local_env_events_classes cfg e h').2.1
  · simp only [List.mem_cons, List.not_mem_nil, or_false] at h'
    subst h'; rfl

/-- Witness for `run_local_other_method_spec` at the container-method
configuration. -/
theorem run_local_other_method_spec_witness :
    (run_local_command localCfgContainer 9998).2 =
      Except.error LocalErr.unboundLocal ∧
    (∀ e ∈ (run_local_command localCfgContainer 9998).1,
      isSpawn e = false) ∧
    Event.addCleanup "Terminate local process" ∈
      (run_local_command localCfgContainer 9998).1 :=
  run_local_other_method_spec localCfgContainer 9998 (by decide) (by decide)

/-- C10: Every entry of the PATH built by `sip_workaround` differs from
all four protected directories — they are removed, not merely shadowed —
and after the two prepended directories the surviving entries are exactly
the non-protected entries of the input PATH, in their original relative
order (a sublist of the original entry list). -/
theorem sip_workaround_protected_removed_spec
    (existing unsupported bin_dir : String)
    (hu : unsupported ∉ sip_protected) (hb : bin_dir ∉ sip_protected) :
    (∀ p ∈ sip_workaround_paths existing unsupported bin_dir,
      p ∉ sip_protected) ∧
    (sip_workaround_paths existing unsupported bin_dir).drop 2 =
      ((splitOnChar ':' existing.data).map String.mk).filter
        (fun p => !(decide (p ∈ sip_protected))) ∧
    List.Sublist ((sip_workaround_paths existing unsupported bin_dir).drop 2)
      ((splitOnChar ':' existing.data).map String.mk) := by
  refine ⟨?_, rfl, List.filter_sublist _⟩
  intro p hp
  simp only [sip_workaround_paths, List.mem_cons] at hp
  rcases hp with rfl | rfl | hp
  · exact hu
  · exact hb
  · have := List.of_mem_filter hp
    simpa using this

/-- Witness for `sip_workaround_protected_removed_spec` at a concrete
PATH containing two protected entries. -/
theorem sip_workaround_protected_removed_spec_witness :
    (∀ p ∈ sip_workaround_paths "/usr/local/bin:/bin:/usr/bin:/home/user/bin"
        "/tmp/unsup_bin" "/tmp/sip_bin", p ∉ sip_protected) ∧
    (sip_workaround_paths "/usr/local/bin:/bin:/usr/bin:/home/user/bin"
        "/tmp/unsup_bin" "/tmp/sip_bin").drop 2 =
      ((splitOnChar ':'
          ("/usr/local/bin:/bin:/usr/bin:/home/user/bin" : String).data).map
        String.mk).filter (fun p => !(decide (p ∈ sip_protected))) ∧
    List.Sublist
      ((sip_workaround_paths "/usr/local/bin:/bin:/usr/bin:/home/user/bin"
        "/tmp/unsup_bin" "/tmp/sip_bin").drop 2)
      ((splitOnChar ':'
          ("/usr/local/bin:/bin:/usr/bin:/home/user/bin" : String).data).map
        String.mk) :=
  sip_workaround_protected_removed_spec
    "/usr/local/bin:/bin:/usr/bin:/home/user/bin" "/tmp/unsup_bin"
    "/tmp/sip_bin" (by decide) (by decide)

/-! ## The regex scan's fuel never runs out -/

theorem takeDigits_length (s : List Char) :
    (takeDigits s).1.length + (takeDigits s).2.length = s.length := by
  induction s with
  | nil => rfl
  | cons c cs ih =>
    by_cases hd : c.isDigit
    · simp only [takeDigits, hd, if_true, List.length_cons]
      omega
    · simp [takeDigits, hd]

theorem matchNum_some {s d r : List Char} (h : matchNum s = some (d, r)) :
    0 < d.length ∧ d.length + r.length = s.length := by
  unfold matchNum at h
  split at h
  · exact Option.noConfusion h
  · rename_i he
    have hlen := takeDigits_length s
    have hpair : takeDigits s = (d, r) := by
      injection h
    rw [hpair] at hlen he
    refine ⟨?_, hlen⟩
    rcases d with _ | ⟨c, d'⟩
    · simp at he
    · simp

theorem eatDot_some {r t : List Char} (h : eatDot r = some t) :
    r.length = t.length + 1 := by
  rcases r with _ | ⟨c, t'⟩
  · exact Option.noConfusion h
  · simp only [eatDot] at h
    split at h
    · injection h with h'
      rw [← h']
      rfl
    · exact Option.noConfusion h

theorem matchIPv4_rest_length {s m r : List Char}
    (h : matchIPv4 s = some (m, r)) : r.length < s.length := by
  unfold matchIPv4 at h
  simp only [Option.bind_eq_some] at h
  obtain ⟨⟨d1, r1⟩, h1, h⟩ := h
  obtain ⟨r1a, h2, h⟩ := h
  obtain ⟨⟨d2, r2⟩, h3, h⟩ := h
  obtain ⟨r2a, h4, h⟩ := h
  obtain ⟨⟨d3, r3⟩, h5, h⟩ := h
  obtain ⟨r3a, h6, h⟩ := h
  obtain ⟨⟨d4, r4⟩, h7, h⟩ := h
  simp only [Option.some.injEq, Prod.mk.injEq] at h
  obtain ⟨_, hr⟩ := h
  subst hr
  have a1 := matchNum_some h1
  have a2 := eatDot_some h2
  have a3 := matchNum_some h3
  have a4 := eatDot_some h4
  have a5 := matchNum_some h5
  have a6 := eatDot_some h6
  have a7 := matchNum_some h7
  dsimp only at a1 a2 a3 a4 a5 a6 a7
  omega

theorem findAllIPv4Go_fuel_irrel :
    ∀ fuel1, ∀ s fuel2, s.length ≤ fuel1 → s.length ≤ fuel2 →
      findAllIPv4Go fuel1 s = findAllIPv4Go fuel2 s := by
  intro fuel1
  induction fuel1 with
  | zero =>
    intro s fuel2 h1 _
    have hs : s = [] := List.eq_nil_of_length_eq_zero (by omega)
    subst hs
    cases fuel2 <;> rfl
  | succ n ih =>
    intro s fuel2 h1 h2
    rcases s with _ | ⟨c, cs⟩
    · cases fuel2 <;> rfl
    · match fuel2, h2 with
      | f2 + 1, h2 =>
        simp only [List.length_cons] at h1 h2
        simp only [findAllIPv4Go]
        rcases hm : matchIPv4 (c :: cs) with _ | ⟨mm, rr⟩
        · simp only [hm]
          exact ih cs f2 (by omega) (by omega)
        · have hlt := matchIPv4_rest_length hm
          simp only [List.length_cons] at hlt
          simp only [hm]
          rw [ih rr f2 (by omega) (by omega)]

/-- The fuel `s.data.length` used by `findAllIPv4` is always sufficient:
any larger fuel yields the same match list, so the fuelled scan computes
the unbounded regex scan. -/
theorem findAllIPv4_fuel_sufficient (s : String) (fuel : Nat)
    (h : s.data.length ≤ fuel) :
    findAllIPv4Go fuel s.data = findAllIPv4 s :=
  findAllIPv4Go_fuel_irrel fuel s.data s.data.length h (Nat.le_refl _)
